import Mathlib

/-!
Verification of `src/utils/image_processor.py` (Comic Image Processing Utility).

Shallow embedding conventions:

* Python `float` division and `min` on the resize ratios are modelled with
  exact rationals (`ℚ`); `int(x)` for the nonnegative values occurring here
  is `Int.floor` followed by `Int.toNat`.
* Filesystem paths are modelled structurally: a `PyPath` carries the parent
  directory string, the stem and the final extension (with its leading dot),
  mirroring Python's `pathlib.Path.parent` / `.stem` / `.suffix`.
* The Pillow library is external; it is modelled by an environment `Env`
  carrying its observable behavior: whether the import succeeded
  (`PIL_AVAILABLE`), the decode oracle (`Image.open` result per path), the
  bounding-box fit computed by `Image.thumbnail` (library-internal), and the
  on-disk file size (`os.path.getsize`).
* Effectful calls (`img.save`, `img.resize`, `mkdir`) are reified into the
  returned records (`SaveCall`, `OptResult.resize_call`, `BatchResult`), so
  that theorems can speak about the arguments the code passes to the library.
* A raised Python exception is an `Except.error` carrying the message; the
  `try/except` in `batch_optimize` is the `match` on that value.
-/

/-- `ComicImageProcessor.__init__` configuration: `max_width`, `max_height`,
`quality` (constructor defaults 1200 / 1800 / 85). -/
structure ProcessingPolicy where
  max_width : ℕ
  max_height : ℕ
  quality : ℕ
deriving DecidableEq

/-- The constructor defaults `max_width=1200, max_height=1800, quality=85`. -/
def default_policy : ProcessingPolicy := ⟨1200, 1800, 85⟩

/-- Color modes that `PIL.Image.open` can produce for the file formats this
tool accepts (`.jpg .jpeg .png .webp .bmp`), per Pillow's documentation:
`1`, `L`, `LA`, `P`, `RGB`, `RGBA`, `CMYK`. The source compares the mode
against the string literals `'RGBA'`, `'LA'`, `'P'`. -/
inductive PILMode where
  | one
  | L
  | LA
  | P
  | RGB
  | RGBA
  | CMYK
deriving DecidableEq

/-- A mode whose pixels carry an alpha channel (Pillow: `LA`, `RGBA`). -/
def PILMode.hasAlpha : PILMode → Bool
  | .LA => true
  | .RGBA => true
  | _ => false

/-- A mode whose pixels are palette indices (Pillow: `P`). -/
def PILMode.hasPalette : PILMode → Bool
  | .P => true
  | _ => false

/-- Lines 66-67 and 102-103: `if img.mode in ('RGBA', 'LA', 'P'):
img = img.convert('RGB')`. -/
def convert_mode (m : PILMode) : PILMode :=
  if m = .RGBA ∨ m = .LA ∨ m = .P then .RGB else m

/-- A decoded in-memory image as far as this code observes it: color mode,
declared format and pixel dimensions. -/
structure DecodedImage where
  mode : PILMode
  format : String
  width : ℕ
  height : ℕ
deriving DecidableEq

/-- A filesystem path split as Python's `pathlib` sees it: `dir` is
`str(path.parent)`, `stem` is `path.stem`, `ext` is `path.suffix`
(final extension, leading dot included; empty when the name has none). -/
structure PyPath where
  dir : String
  stem : String
  ext : String
deriving DecidableEq

/-- `path.name`: stem plus suffix. -/
def PyPath.name (p : PyPath) : String := p.stem ++ p.ext

/-- `os.path.join` for the POSIX separator used throughout. -/
def os_path_join (a b : String) : String := a ++ "/" ++ b

/-- The external Pillow library and the filesystem, as oracles. -/
structure Env where
  pil_available : Bool
  decode : PyPath → Except String DecodedImage
  thumb_dims : ℕ × ℕ → ℕ × ℕ → ℕ × ℕ
  file_size : PyPath → ℕ

/-- The message of the `RuntimeError` raised when Pillow is unavailable. -/
def dep_error : String := "Pillow library is required for image processing"

/-- Lines 141-144, `_generate_output_path`: output lands in the same
directory, with the suffix appended to the stem and extension `.jpg`:
`str(path.parent / f"{path.stem}{suffix}.jpg")`. -/
def generate_output_path (input : PyPath) (suffix : String) : PyPath :=
  ⟨input.dir, input.stem ++ suffix, ".jpg"⟩

/-- Lines 70-72: `width_ratio = self.max_width / original_width`,
`height_ratio = self.max_height / original_height`,
`resize_ratio = min(width_ratio, height_ratio, 1.0)`, in exact rationals. -/
def resize_ratio (pol : ProcessingPolicy) (w h : ℕ) : ℚ :=
  min (min ((pol.max_width : ℚ) / w) ((pol.max_height : ℚ) / h)) 1

/-- Lines 74-77: if `resize_ratio < 1.0` the image is resized to
`(int(original_width * resize_ratio), int(original_height * resize_ratio))`,
otherwise the dimensions are untouched. -/
def optimized_size (pol : ProcessingPolicy) (w h : ℕ) : ℕ × ℕ :=
  if resize_ratio pol w h < 1 then
    ((⌊(w : ℚ) * resize_ratio pol w h⌋).toNat, (⌊(h : ℚ) * resize_ratio pol w h⌋).toNat)
  else (w, h)

/-- One `img.save(...)` call with the arguments the code passes: target path,
format string, quality, the `optimize=True` flag, and the mode/dimensions of
the image object being saved. -/
structure SaveCall where
  path : PyPath
  format : String
  quality : ℕ
  optimize : Bool
  mode : PILMode
  dims : ℕ × ℕ
deriving DecidableEq

/-- The observable outcome of a successful `optimize_image` /
`create_thumbnail` call: the returned path, the save call issued, and the
dimensions passed to `img.resize` when a resize happened (`none` otherwise). -/
structure OptResult where
  ret : PyPath
  save : SaveCall
  resize_call : Option (ℕ × ℕ)
deriving DecidableEq

/-- The success branch of `optimize_image` (lines 65-81): normalize the mode,
compute the resized dimensions, save as JPEG at `self.quality` with
`optimize=True`, return `output_path`. -/
def optimize_result (pol : ProcessingPolicy) (output_path : PyPath)
    (img : DecodedImage) : OptResult :=
  { ret := output_path
    save := { path := output_path, format := "JPEG", quality := pol.quality,
              optimize := true, mode := convert_mode img.mode,
              dims := optimized_size pol img.width img.height }
    resize_call :=
      if resize_ratio pol img.width img.height < 1 then
        some (optimized_size pol img.width img.height)
      else none }

/-- Lines 48-81, `optimize_image(input_path, output_path=None)`. -/
def optimize_image (env : Env) (pol : ProcessingPolicy) (input : PyPath)
    (output : Option PyPath) : Except String OptResult :=
  if env.pil_available = false then .error dep_error
  else
    match env.decode input with
    | .error e => .error e
    | .ok img =>
      .ok (optimize_result pol (output.getD (generate_output_path input "_optimized")) img)

/-- The success branch of `create_thumbnail` (lines 101-108): same mode
normalization as `optimize_image`, bounding-box `img.thumbnail` (library
call, `env.thumb_dims`), save as JPEG at the literal quality 90. -/
def thumbnail_result (env : Env) (output_path : PyPath) (size : ℕ × ℕ)
    (img : DecodedImage) : OptResult :=
  { ret := output_path
    save := { path := output_path, format := "JPEG", quality := 90,
              optimize := true, mode := convert_mode img.mode,
              dims := env.thumb_dims size (img.width, img.height) }
    resize_call := none }

/-- Lines 83-108, `create_thumbnail(input_path, output_path=None,
size=(400, 600))`. The policy (`self`) is in scope but its `quality` is not
consulted: the save uses the literal 90. -/
def create_thumbnail (env : Env) (_pol : ProcessingPolicy) (input : PyPath)
    (output : Option PyPath) (size : ℕ × ℕ) : Except String OptResult :=
  if env.pil_available = false then .error dep_error
  else
    match env.decode input with
    | .error e => .error e
    | .ok img =>
      .ok (thumbnail_result env (output.getD (generate_output_path input "_thumb")) size img)

/-- `get_image_info` result dict (lines 159-166). -/
structure ImageInfo where
  width : ℕ
  height : ℕ
  format : String
  mode : PILMode
  file_size : ℕ
deriving DecidableEq

/-- Lines 146-166, `get_image_info(image_path)`. -/
def get_image_info (env : Env) (path : PyPath) : Except String ImageInfo :=
  if env.pil_available = false then .error dep_error
  else
    match env.decode path with
    | .error e => .error e
    | .ok img =>
      .ok ⟨img.width, img.height, img.format, img.mode, env.file_size path⟩

/-- Line 126: `supported_formats = {'.jpg', '.jpeg', '.png', '.webp', '.bmp'}`. -/
def supported_formats : List String := [".jpg", ".jpeg", ".png", ".webp", ".bmp"]

/-- Python's `str.lower()`, modelled character by character (the extensions
compared here are ASCII). -/
def py_lower (s : String) : String := ⟨s.data.map Char.toLower⟩

/-- Line 130: `file_path.suffix.lower() in supported_formats`. -/
def is_supported (e : PyPath) : Bool := supported_formats.contains (py_lower e.ext)

/-- One console line of the batch loop: `Optimized: name -> output` on
success, `Error processing name: msg` on a caught exception. -/
inductive BatchEvent where
  | ok : String → PyPath → BatchEvent
  | err : String → String → BatchEvent
deriving DecidableEq

/-- Accumulator of the batch loop: successful output paths
(`optimized_images`), console events, and the `(entry, output_path)` pairs
each `optimize_image` call received. -/
structure BatchAcc where
  optimized_images : List PyPath
  events : List BatchEvent
  calls : List (PyPath × PyPath)
deriving DecidableEq

/-- Lines 130-137: the body of the batch loop for one directory entry. An
unsupported suffix is skipped; otherwise `optimize_image` runs under
`try/except`, appending the output path on success and logging the caught
exception on failure. -/
def batch_step (env : Env) (pol : ProcessingPolicy) (output_dir : String)
    (acc : BatchAcc) (e : PyPath) : BatchAcc :=
  if is_supported e then
    match optimize_image env pol e (some ⟨output_dir, e.stem, ".jpg"⟩) with
    | .ok _ =>
      ⟨acc.optimized_images ++ [⟨output_dir, e.stem, ".jpg"⟩],
       acc.events ++ [.ok e.name ⟨output_dir, e.stem, ".jpg"⟩],
       acc.calls ++ [(e, ⟨output_dir, e.stem, ".jpg"⟩)]⟩
    | .error m =>
      ⟨acc.optimized_images, acc.events ++ [.err e.name m],
       acc.calls ++ [(e, ⟨output_dir, e.stem, ".jpg"⟩)]⟩
  else acc

/-- The whole observable outcome of `batch_optimize`: the directory passed to
`Path(...).mkdir` together with its `parents=True, exist_ok=True` flags, and
the loop's accumulated lists. -/
structure BatchResult where
  mkdir_dir : String
  mkdir_parents : Bool
  mkdir_exist_ok : Bool
  optimized_images : List PyPath
  events : List BatchEvent
  calls : List (PyPath × PyPath)
deriving DecidableEq

/-- Lines 121-122: `output_dir` defaults to `os.path.join(input_dir,
'optimized')` when `None`. -/
def batch_output_dir (input_dir : String) (output_dir : Option String) : String :=
  output_dir.getD (os_path_join input_dir "optimized")

/-- Lines 110-139, `batch_optimize(input_dir, output_dir=None)`, assembled
from `batch_output_dir`, the `mkdir` flags of line 124 and the loop of
lines 129-137. `entries` is the (non-recursive, OS-ordered) listing
`Path(input_dir).iterdir()`. -/
def batch_optimize (env : Env) (pol : ProcessingPolicy) (input_dir : String)
    (entries : List PyPath) (output_dir : Option String) : BatchResult :=
  let acc := entries.foldl
    (batch_step env pol (batch_output_dir input_dir output_dir)) ⟨[], [], []⟩
  ⟨batch_output_dir input_dir output_dir, true, true,
   acc.optimized_images, acc.events, acc.calls⟩

/-! ### Concrete fixtures used by witnesses and counterexamples -/

/-- An already-decoded plain RGB 800x600 image. -/
def sample_image : DecodedImage := ⟨.RGB, "JPEG", 800, 600⟩

/-- An extremely tall, narrow decoded image (1 x 2000 pixels). -/
def tall_image : DecodedImage := ⟨.RGB, "PNG", 1, 2000⟩

/-- A decoded image with an alpha channel. -/
def rgba_image : DecodedImage := ⟨.RGBA, "PNG", 800, 600⟩

/-- An environment where Pillow imported fine and every decode succeeds. -/
def env_ok : Env := ⟨true, fun _ => .ok sample_image, fun _ wh => wh, fun _ => 1000⟩

/-- An environment where Pillow is not installed. -/
def env_nopil : Env := ⟨false, fun _ => .ok sample_image, fun _ wh => wh, fun _ => 1000⟩

/-- An environment whose decode succeeds except on stems named `bad`
(a corrupt file in the directory). -/
def env_flaky : Env :=
  ⟨true, fun p => if p.stem = "bad" then .error "broken file" else .ok sample_image,
   fun _ wh => wh, fun _ => 1000⟩

/-- An environment that decodes everything to the tall narrow image. -/
def env_tall : Env := ⟨true, fun _ => .ok tall_image, fun _ wh => wh, fun _ => 1000⟩

/-- An environment that decodes everything to the RGBA image. -/
def env_rgba : Env := ⟨true, fun _ => .ok rgba_image, fun _ wh => wh, fun _ => 1000⟩

/-- A sample input file `comics/page1.png`. -/
def in_sample : PyPath := ⟨"comics", "page1", ".png"⟩

/-! ### Helper lemmas -/

/-- Successful `optimize_image` runs decompose into a successful decode and
the pure success branch `optimize_result`. -/
theorem optimize_image_ok_elim {env : Env} {pol : ProcessingPolicy}
    {i : PyPath} {o : Option PyPath} {r : OptResult}
    (h : optimize_image env pol i o = .ok r) :
    ∃ img, env.decode i = .ok img ∧
      r = optimize_result pol (o.getD (generate_output_path i "_optimized")) img := by
  cases hb : env.pil_available with
  | false => simp [optimize_image, hb] at h
  | true =>
    cases hd : env.decode i with
    | error e => simp [optimize_image, hb, hd] at h
    | ok img =>
      simp [optimize_image, hb, hd] at h
      exact ⟨img, rfl, h.symm⟩

/-- Successful `create_thumbnail` runs decompose into a successful decode
and the pure success branch `thumbnail_result`. -/
theorem create_thumbnail_ok_elim {env : Env} {pol : ProcessingPolicy}
    {i : PyPath} {o : Option PyPath} {sz : ℕ × ℕ} {r : OptResult}
    (h : create_thumbnail env pol i o sz = .ok r) :
    ∃ img, env.decode i = .ok img ∧
      r = thumbnail_result env (o.getD (generate_output_path i "_thumb")) sz img := by
  cases hb : env.pil_available with
  | false => simp [create_thumbnail, hb] at h
  | true =>
    cases hd : env.decode i with
    | error e => simp [create_thumbnail, hb, hd] at h
    | ok img =>
      simp [create_thumbnail, hb, hd] at h
      exact ⟨img, rfl, h.symm⟩

/-- When both dimensions are within the policy bounds, both ratios are at
least one, so the clamped ratio is exactly one. -/
theorem resize_ratio_eq_one (pol : ProcessingPolicy) (w h : ℕ)
    (hw : 0 < w) (hh : 0 < h)
    (hbw : w ≤ pol.max_width) (hbh : h ≤ pol.max_height) :
    resize_ratio pol w h = 1 := by
  have hw0 : (0 : ℚ) < w := by exact_mod_cast hw
  have hh0 : (0 : ℚ) < h := by exact_mod_cast hh
  have h1 : (1 : ℚ) ≤ (pol.max_width : ℚ) / w := by
    rw [le_div_iff₀ hw0, one_mul]
    exact_mod_cast hbw
  have h2 : (1 : ℚ) ≤ (pol.max_height : ℚ) / h := by
    rw [le_div_iff₀ hh0, one_mul]
    exact_mod_cast hbh
  unfold resize_ratio
  exact min_eq_right (le_min h1 h2)

/-- Within-bounds images keep their dimensions. -/
theorem optimized_size_of_le (pol : ProcessingPolicy) (w h : ℕ)
    (hw : 0 < w) (hh : 0 < h)
    (hbw : w ≤ pol.max_width) (hbh : h ≤ pol.max_height) :
    optimized_size pol w h = (w, h) := by
  unfold optimized_size
  rw [resize_ratio_eq_one pol w h hw hh hbw hbh]
  simp

/-- Truncating both rescaled dimensions perturbs the aspect ratio by less
than one pixel row/column worth of cross product. -/
theorem floor_pair_aspect (w h : ℕ) (q : ℚ) (hw : 0 < w) (hh : 0 < h) :
    |(⌊(w : ℚ) * q⌋ * h - ⌊(h : ℚ) * q⌋ * w : ℤ)| < (max w h : ℤ) := by
  have hw0 : (0 : ℚ) < w := by exact_mod_cast hw
  have hh0 : (0 : ℚ) < h := by exact_mod_cast hh
  have hA : ((⌊(w : ℚ) * q⌋ : ℚ)) ≤ (w : ℚ) * q := Int.floor_le _
  have hA' : (w : ℚ) * q - 1 < (⌊(w : ℚ) * q⌋ : ℚ) := Int.sub_one_lt_floor _
  have hB : ((⌊(h : ℚ) * q⌋ : ℚ)) ≤ (h : ℚ) * q := Int.floor_le _
  have hB' : (h : ℚ) * q - 1 < (⌊(h : ℚ) * q⌋ : ℚ) := Int.sub_one_lt_floor _
  rw [abs_lt]
  constructor
  · have hq : -((max w h : ℕ) : ℚ) < (⌊(w : ℚ) * q⌋ : ℚ) * h - (⌊(h : ℚ) * q⌋ : ℚ) * w := by
      have hmax : (h : ℚ) ≤ ((max w h : ℕ) : ℚ) := by
        push_cast
        exact le_max_right _ _
      have p1 : ((w : ℚ) * q - 1) * h < (⌊(w : ℚ) * q⌋ : ℚ) * h :=
        mul_lt_mul_of_pos_right hA' hh0
      have p2 : (⌊(h : ℚ) * q⌋ : ℚ) * w ≤ ((h : ℚ) * q) * w :=
        mul_le_mul_of_nonneg_right hB (le_of_lt hw0)
      nlinarith [p1, p2, hmax]
    exact_mod_cast hq
  · have hq : (⌊(w : ℚ) * q⌋ : ℚ) * h - (⌊(h : ℚ) * q⌋ : ℚ) * w < ((max w h : ℕ) : ℚ) := by
      have hmax : (w : ℚ) ≤ ((max w h : ℕ) : ℚ) := by
        push_cast
        exact le_max_left _ _
      have p1 : (⌊(w : ℚ) * q⌋ : ℚ) * h ≤ ((w : ℚ) * q) * h :=
        mul_le_mul_of_nonneg_right hA (le_of_lt hh0)
      have p2 : ((h : ℚ) * q - 1) * w < (⌊(h : ℚ) * q⌋ : ℚ) * w :=
        mul_lt_mul_of_pos_right hB' hw0
      nlinarith [p1, p2, hmax]
    exact_mod_cast hq

/-- The clamped ratio is never negative. -/
theorem resize_ratio_nonneg (pol : ProcessingPolicy) (w h : ℕ) :
    (0 : ℚ) ≤ resize_ratio pol w h := by
  unfold resize_ratio
  refine le_min (le_min ?_ ?_) ?_ <;> positivity

/-! ### Claim theorems -/

/-- C1: for every decoded image whose width is at most `max_width` and whose
height is at most `max_height`, `optimize_image` leaves the pixel dimensions
unchanged: the applied scale factor `min(width_ratio, height_ratio, 1.0)`
clamps at exactly 1, no `img.resize` call is issued, the saved dimensions are
the original ones, and applying the dimension transformation a second time to
such an output again changes nothing (idempotence on dimensions). -/
theorem c1_within_bounds_dimensions_unchanged
    (env : Env) (pol : ProcessingPolicy) (i : PyPath) (o : Option PyPath)
    (img : DecodedImage) (r : OptResult)
    (hdec : env.decode i = .ok img)
    (hw : 0 < img.width) (hh : 0 < img.height)
    (hbw : img.width ≤ pol.max_width) (hbh : img.height ≤ pol.max_height)
    (hrun : optimize_image env pol i o = .ok r) :
    resize_ratio pol img.width img.height = 1 ∧
    optimized_size pol img.width img.height = (img.width, img.height) ∧
    optimized_size pol (optimized_size pol img.width img.height).1
      (optimized_size pol img.width img.height).2 = (img.width, img.height) ∧
    r.save.dims = (img.width, img.height) ∧
    r.resize_call = none := by
  have hone := resize_ratio_eq_one pol img.width img.height hw hh hbw hbh
  have hsz := optimized_size_of_le pol img.width img.height hw hh hbw hbh
  obtain ⟨img', hdec', hr⟩ := optimize_image_ok_elim hrun
  rw [hdec] at hdec'
  injection hdec' with he
  subst he
  refine ⟨hone, hsz, ?_, ?_, ?_⟩
  · rw [hsz]
    exact optimized_size_of_le pol img.width img.height hw hh hbw hbh
  · rw [hr]
    simp [optimize_result, hsz]
  · rw [hr]
    simp [optimize_result, hone]

/-- Witness for C1: a decoded 800x600 image under the default 1200x1800
policy comes back with its dimensions untouched and no resize call. -/
theorem c1_within_bounds_dimensions_unchanged_witness :
    env_ok.decode in_sample = .ok sample_image ∧
    0 < sample_image.width ∧ 0 < sample_image.height ∧
    sample_image.width ≤ default_policy.max_width ∧
    sample_image.height ≤ default_policy.max_height ∧
    optimize_image env_ok default_policy in_sample none
      = .ok (optimize_result default_policy
          (generate_output_path in_sample "_optimized") sample_image) ∧
    (resize_ratio default_policy sample_image.width sample_image.height = 1 ∧
     optimized_size default_policy sample_image.width sample_image.height
       = (sample_image.width, sample_image.height) ∧
     optimized_size default_policy
       (optimized_size default_policy sample_image.width sample_image.height).1
       (optimized_size default_policy sample_image.width sample_image.height).2
       = (sample_image.width, sample_image.height) ∧
     (optimize_result default_policy
        (generate_output_path in_sample "_optimized") sample_image).save.dims
       = (sample_image.width, sample_image.height) ∧
     (optimize_result default_policy
        (generate_output_path in_sample "_optimized") sample_image).resize_call
       = none) :=
  ⟨rfl, by decide, by decide, by decide, by decide, rfl,
   c1_within_bounds_dimensions_unchanged env_ok default_policy in_sample none
     sample_image
     (optimize_result default_policy
       (generate_output_path in_sample "_optimized") sample_image)
     rfl (by decide) (by decide) (by decide) (by decide) rfl⟩

/-- C2: when the original dimensions exceed the bounds (clamped ratio
strictly below 1), the resized dimensions are `int(w*r)` and `int(h*r)` for
`r = min(max_width/w, max_height/h)`, both respect the bounds, and the aspect
ratio is preserved within integer-rounding tolerance: the cross products of
the new and old dimensions differ by less than `max w h`. -/
theorem c2_resize_bounds_and_aspect (pol : ProcessingPolicy) (w h : ℕ)
    (hw : 0 < w) (hh : 0 < h) (hr : resize_ratio pol w h < 1) :
    optimized_size pol w h
      = ((⌊(w : ℚ) * min ((pol.max_width : ℚ) / w) ((pol.max_height : ℚ) / h)⌋).toNat,
         (⌊(h : ℚ) * min ((pol.max_width : ℚ) / w) ((pol.max_height : ℚ) / h)⌋).toNat) ∧
    (optimized_size pol w h).1 ≤ pol.max_width ∧
    (optimized_size pol w h).2 ≤ pol.max_height ∧
    |((optimized_size pol w h).1 : ℤ) * h - ((optimized_size pol w h).2 : ℤ) * w|
      < ((max w h : ℕ) : ℤ) := by
  have hw0 : (0 : ℚ) < w := by exact_mod_cast hw
  have hh0 : (0 : ℚ) < h := by exact_mod_cast hh
  have hmin : resize_ratio pol w h
      = min ((pol.max_width : ℚ) / w) ((pol.max_height : ℚ) / h) := by
    rcases le_or_lt (min ((pol.max_width : ℚ) / w) ((pol.max_height : ℚ) / h)) 1
      with hle | hlt
    · exact min_eq_left hle
    · exfalso
      unfold resize_ratio at hr
      rw [min_eq_right (le_of_lt hlt)] at hr
      exact lt_irrefl 1 hr
  have hsz : optimized_size pol w h
      = ((⌊(w : ℚ) * resize_ratio pol w h⌋).toNat,
         (⌊(h : ℚ) * resize_ratio pol w h⌋).toNat) := by
    unfold optimized_size
    rw [if_pos hr]
  have hlew : resize_ratio pol w h ≤ (pol.max_width : ℚ) / w := by
    rw [hmin]
    exact min_le_left _ _
  have hleh : resize_ratio pol w h ≤ (pol.max_height : ℚ) / h := by
    rw [hmin]
    exact min_le_right _ _
  have hbw : (⌊(w : ℚ) * resize_ratio pol w h⌋).toNat ≤ pol.max_width := by
    have h1 : (w : ℚ) * resize_ratio pol w h ≤ (pol.max_width : ℚ) := by
      calc (w : ℚ) * resize_ratio pol w h
          ≤ (w : ℚ) * ((pol.max_width : ℚ) / w) :=
            mul_le_mul_of_nonneg_left hlew (le_of_lt hw0)
        _ = (pol.max_width : ℚ) := by field_simp
    have h2 : ⌊(w : ℚ) * resize_ratio pol w h⌋ ≤ (pol.max_width : ℤ) := by
      have h3 := Int.floor_le_floor h1
      simpa using h3
    exact Int.toNat_le.mpr h2
  have hbh : (⌊(h : ℚ) * resize_ratio pol w h⌋).toNat ≤ pol.max_height := by
    have h1 : (h : ℚ) * resize_ratio pol w h ≤ (pol.max_height : ℚ) := by
      calc (h : ℚ) * resize_ratio pol w h
          ≤ (h : ℚ) * ((pol.max_height : ℚ) / h) :=
            mul_le_mul_of_nonneg_left hleh (le_of_lt hh0)
        _ = (pol.max_height : ℚ) := by field_simp
    have h2 : ⌊(h : ℚ) * resize_ratio pol w h⌋ ≤ (pol.max_height : ℤ) := by
      have h3 := Int.floor_le_floor h1
      simpa using h3
    exact Int.toNat_le.mpr h2
  refine ⟨by rw [hsz, hmin], by rw [hsz]; exact hbw, by rw [hsz]; exact hbh, ?_⟩
  rw [hsz]
  show |((⌊(w : ℚ) * resize_ratio pol w h⌋).toNat : ℤ) * h -
        ((⌊(h : ℚ) * resize_ratio pol w h⌋).toNat : ℤ) * w| < ((max w h : ℕ) : ℤ)
  have hfa : (0 : ℤ) ≤ ⌊(w : ℚ) * resize_ratio pol w h⌋ :=
    Int.floor_nonneg.mpr (mul_nonneg (by positivity) (resize_ratio_nonneg pol w h))
  have hfb : (0 : ℤ) ≤ ⌊(h : ℚ) * resize_ratio pol w h⌋ :=
    Int.floor_nonneg.mpr (mul_nonneg (by positivity) (resize_ratio_nonneg pol w h))
  rw [Int.toNat_of_nonneg hfa, Int.toNat_of_nonneg hfb]
  have hmain := floor_pair_aspect w h (resize_ratio pol w h) hw hh
  simpa [Nat.cast_max] using hmain

/-- Witness for C2: a 2000x1000 image under the default policy shrinks to
1200x600, within bounds and within the aspect tolerance. -/
theorem c2_resize_bounds_and_aspect_witness :
    0 < 2000 ∧ 0 < 1000 ∧ resize_ratio default_policy 2000 1000 < 1 ∧
    ((optimized_size default_policy 2000 1000).1 ≤ default_policy.max_width ∧
     (optimized_size default_policy 2000 1000).2 ≤ default_policy.max_height ∧
     |((optimized_size default_policy 2000 1000).1 : ℤ) * 1000 -
        ((optimized_size default_policy 2000 1000).2 : ℤ) * 2000|
       < ((max 2000 1000 : ℕ) : ℤ)) :=
  ⟨by decide, by decide, by norm_num [resize_ratio, default_policy, min_def],
   (c2_resize_bounds_and_aspect default_policy 2000 1000 (by decide) (by decide)
      (by norm_num [resize_ratio, default_policy, min_def])).2⟩

/-- C10: integer truncation of the resized dimensions can produce 0.
Under the default policy a decoded 1x2000 image (positive dimensions,
positive bounds, `orig_w * max_height < orig_h`) has clamped ratio
`1800/2000 = 9/10 < 1`, and `int(1 * 0.9) = 0`, so `optimize_image`
passes the zero width `(0, 1800)` to the `img.resize` step. -/
theorem c10_zero_width_resize :
    0 < (1 : ℕ) ∧ 0 < (2000 : ℕ) ∧
    1 * default_policy.max_height < 2000 ∧
    resize_ratio default_policy 1 2000 < 1 ∧
    optimized_size default_policy 1 2000 = (0, 1800) ∧
    optimize_image env_tall default_policy in_sample none
      = .ok (optimize_result default_policy
          (generate_output_path in_sample "_optimized") tall_image) ∧
    (optimize_result default_policy
       (generate_output_path in_sample "_optimized") tall_image).resize_call
      = some (0, 1800) := by
  have hq : resize_ratio default_policy 1 2000 = 9 / 10 := by
    norm_num [resize_ratio, default_policy, min_def]
  have hlt : resize_ratio default_policy 1 2000 < 1 := by
    rw [hq]
    norm_num
  have hsz : optimized_size default_policy 1 2000 = (0, 1800) := by
    unfold optimized_size
    rw [if_pos hlt, hq]
    norm_num
    rfl
  refine ⟨by decide, by decide, by decide, hlt, hsz, rfl, ?_⟩
  show (if resize_ratio default_policy 1 2000 < 1
        then some (optimized_size default_policy 1 2000) else none) = some (0, 1800)
  rw [if_pos hlt, hsz]

/-! ### Batch loop characterization -/

/-- Refinement reference following the spec's words: the successfully
processed output paths are the supported entries whose single-image optimize
call succeeds, each mapped to `<output_dir>/<stem>.jpg`, in enumeration
order. -/
def batch_success_outputs (env : Env) (pol : ProcessingPolicy)
    (out_dir : String) (entries : List PyPath) : List PyPath :=
  (entries.filter (fun e => is_supported e)).filterMap (fun e =>
    match optimize_image env pol e (some ⟨out_dir, e.stem, ".jpg"⟩) with
    | .ok _ => some ⟨out_dir, e.stem, ".jpg"⟩
    | .error _ => none)

/-- The console line the loop prints for one supported entry. -/
def batch_event_of (env : Env) (pol : ProcessingPolicy) (out_dir : String)
    (e : PyPath) : BatchEvent :=
  match optimize_image env pol e (some ⟨out_dir, e.stem, ".jpg"⟩) with
  | .ok _ => .ok e.name ⟨out_dir, e.stem, ".jpg"⟩
  | .error m => .err e.name m

theorem batch_foldl_images (env : Env) (pol : ProcessingPolicy)
    (out_dir : String) (entries : List PyPath) (acc : BatchAcc) :
    (entries.foldl (batch_step env pol out_dir) acc).optimized_images
      = acc.optimized_images ++ batch_success_outputs env pol out_dir entries := by
  induction entries generalizing acc with
  | nil => simp [batch_success_outputs]
  | cons e es ih =>
    rw [List.foldl_cons, ih]
    cases hs : is_supported e with
    | false => simp [batch_step, batch_success_outputs, hs, List.filter_cons]
    | true =>
      cases hopt : optimize_image env pol e (some ⟨out_dir, e.stem, ".jpg"⟩) with
      | ok r =>
        simp [batch_step, batch_success_outputs, hs, hopt, List.filter_cons]
      | error m =>
        simp [batch_step, batch_success_outputs, hs, hopt, List.filter_cons]

theorem batch_foldl_events (env : Env) (pol : ProcessingPolicy)
    (out_dir : String) (entries : List PyPath) (acc : BatchAcc) :
    (entries.foldl (batch_step env pol out_dir) acc).events
      = acc.events ++ (entries.filter (fun e => is_supported e)).map
          (batch_event_of env pol out_dir) := by
  induction entries generalizing acc with
  | nil => simp
  | cons e es ih =>
    rw [List.foldl_cons, ih]
    cases hs : is_supported e with
    | false => simp [batch_step, hs, List.filter_cons]
    | true =>
      cases hopt : optimize_image env pol e (some ⟨out_dir, e.stem, ".jpg"⟩) with
      | ok r =>
        simp [batch_step, batch_event_of, hs, hopt, List.filter_cons]
      | error m =>
        simp [batch_step, batch_event_of, hs, hopt, List.filter_cons]

theorem batch_foldl_calls (env : Env) (pol : ProcessingPolicy)
    (out_dir : String) (entries : List PyPath) (acc : BatchAcc) :
    (entries.foldl (batch_step env pol out_dir) acc).calls
      = acc.calls ++ (entries.filter (fun e => is_supported e)).map
          (fun e => (e, (⟨out_dir, e.stem, ".jpg"⟩ : PyPath))) := by
  induction entries generalizing acc with
  | nil => simp
  | cons e es ih =>
    rw [List.foldl_cons, ih]
    cases hs : is_supported e with
    | false => simp [batch_step, hs, List.filter_cons]
    | true =>
      cases hopt : optimize_image env pol e (some ⟨out_dir, e.stem, ".jpg"⟩) with
      | ok r => simp [batch_step, hs, hopt, List.filter_cons]
      | error m => simp [batch_step, hs, hopt, List.filter_cons]

/-- The returned list of `batch_optimize` is exactly the spec-side success
list. -/
theorem batch_optimize_images (env : Env) (pol : ProcessingPolicy)
    (input_dir : String) (entries : List PyPath) (o : Option String) :
    (batch_optimize env pol input_dir entries o).optimized_images
      = batch_success_outputs env pol (batch_output_dir input_dir o) entries := by
  simp [batch_optimize, batch_foldl_images]

/-- The console events of `batch_optimize`, one per supported entry. -/
theorem batch_optimize_events (env : Env) (pol : ProcessingPolicy)
    (input_dir : String) (entries : List PyPath) (o : Option String) :
    (batch_optimize env pol input_dir entries o).events
      = (entries.filter (fun e => is_supported e)).map
          (batch_event_of env pol (batch_output_dir input_dir o)) := by
  simp [batch_optimize, batch_foldl_events]

/-- The `optimize_image` calls `batch_optimize` makes, one per supported
entry, in order, each with output `<output_dir>/<stem>.jpg`. -/
theorem batch_optimize_calls (env : Env) (pol : ProcessingPolicy)
    (input_dir : String) (entries : List PyPath) (o : Option String) :
    (batch_optimize env pol input_dir entries o).calls
      = (entries.filter (fun e => is_supported e)).map
          (fun e => (e, (⟨batch_output_dir input_dir o, e.stem, ".jpg"⟩ : PyPath))) := by
  simp [batch_optimize, batch_foldl_calls]

/-- C3: a failure while processing one file is caught, logged, and does not
abort the batch. In general the returned list is exactly the successfully
processed output paths of the supported entries, in processing order; a batch
whose listing contains a failing supported file returns the same list as the
batch without that file (the remaining files are still processed and the
failed file contributes nothing), and the failure shows up in the console
events as `Error processing <name>: <msg>` in place of a success line. -/
theorem c3_batch_error_isolation (env : Env) (pol : ProcessingPolicy)
    (input_dir : String) (o : Option String)
    (pre post : List PyPath) (f : PyPath) (m : String)
    (hs : is_supported f = true)
    (hf : optimize_image env pol f
        (some ⟨batch_output_dir input_dir o, f.stem, ".jpg"⟩) = .error m) :
    (∀ entries, (batch_optimize env pol input_dir entries o).optimized_images
        = batch_success_outputs env pol (batch_output_dir input_dir o) entries) ∧
    (batch_optimize env pol input_dir (pre ++ f :: post) o).optimized_images
      = (batch_optimize env pol input_dir (pre ++ post) o).optimized_images ∧
    (batch_optimize env pol input_dir (pre ++ f :: post) o).events
      = (pre.filter (fun e => is_supported e)).map
          (batch_event_of env pol (batch_output_dir input_dir o))
        ++ BatchEvent.err f.name m
        :: (post.filter (fun e => is_supported e)).map
             (batch_event_of env pol (batch_output_dir input_dir o)) := by
  refine ⟨fun entries => batch_optimize_images env pol input_dir entries o, ?_, ?_⟩
  · rw [batch_optimize_images, batch_optimize_images]
    unfold batch_success_outputs
    simp [List.filter_append, List.filter_cons, hs, List.filterMap_append,
          List.filterMap_cons, hf]
  · rw [batch_optimize_events]
    have hev : batch_event_of env pol (batch_output_dir input_dir o) f
        = .err f.name m := by
      unfold batch_event_of
      rw [hf]
    simp [List.filter_append, List.filter_cons, hs, hev]

/-- Witness for C3: in a directory listing `a.jpg, bad.jpg, b.png` where
`bad.jpg` cannot be decoded, the batch still optimizes `a.jpg` and `b.png`,
returns exactly those two outputs, and logs the failure in between. -/
theorem c3_batch_error_isolation_witness :
    is_supported (⟨"comics", "bad", ".jpg"⟩ : PyPath) = true ∧
    optimize_image env_flaky default_policy ⟨"comics", "bad", ".jpg"⟩
        (some ⟨batch_output_dir "comics" none, "bad", ".jpg"⟩)
      = .error "broken file" ∧
    (batch_optimize env_flaky default_policy "comics"
        [⟨"comics", "a", ".jpg"⟩, ⟨"comics", "bad", ".jpg"⟩,
         ⟨"comics", "b", ".png"⟩] none).optimized_images
      = (batch_optimize env_flaky default_policy "comics"
          [⟨"comics", "a", ".jpg"⟩, ⟨"comics", "b", ".png"⟩] none).optimized_images :=
  ⟨by decide, rfl,
   (c3_batch_error_isolation env_flaky default_policy "comics" none
      [⟨"comics", "a", ".jpg"⟩] [⟨"comics", "b", ".png"⟩]
      ⟨"comics", "bad", ".jpg"⟩ "broken file" (by decide) rfl).2.1⟩

/-- C6: `batch_optimize` selects exactly the direct entries of `input_dir`
whose lowercased extension is one of `.jpg .jpeg .png .webp .bmp`; each
selected entry is passed to `optimize_image` with output path
`<output_dir>/<stem>.jpg`, in enumeration order; `output_dir` defaults to
`<input_dir>/optimized` when omitted; and the directory handed to
`Path(...).mkdir` is that output directory, with `parents=True` (and
`exist_ok=True`), before any file is processed. -/
theorem c6_batch_enumeration (env : Env) (pol : ProcessingPolicy)
    (input_dir : String) (entries : List PyPath) (o : Option String) :
    (batch_optimize env pol input_dir entries o).calls
      = (entries.filter (fun e => is_supported e)).map
          (fun e => (e, (⟨batch_output_dir input_dir o, e.stem, ".jpg"⟩ : PyPath))) ∧
    (∀ e : PyPath, is_supported e = true
        ↔ py_lower e.ext ∈ [".jpg", ".jpeg", ".png", ".webp", ".bmp"]) ∧
    (batch_optimize env pol input_dir entries o).mkdir_dir
      = batch_output_dir input_dir o ∧
    batch_output_dir input_dir none = os_path_join input_dir "optimized" ∧
    (batch_optimize env pol input_dir entries o).mkdir_parents = true ∧
    (batch_optimize env pol input_dir entries o).mkdir_exist_ok = true := by
  refine ⟨batch_optimize_calls env pol input_dir entries o, ?_, rfl, rfl, rfl, rfl⟩
  intro e
  simp [is_supported, supported_formats]

/-- C4 as stated is false for `batch_optimize`: with Pillow unavailable, a
batch over a directory holding the supported entry `a.jpg` does not fail with
the dependency-unavailable condition — the loop's `try/except` catches the
per-file `RuntimeError`, logs `Error processing a.jpg: ...`, and the call
returns normally with an empty success list (it even records the attempted
call), while `optimize_image` on the same input does fail with the
condition. -/
theorem c4_batch_no_dependency_failure_cex :
    optimize_image env_nopil default_policy ⟨"comics", "a", ".jpg"⟩ none
      = .error dep_error ∧
    batch_optimize env_nopil default_policy "comics" [⟨"comics", "a", ".jpg"⟩] none
      = ⟨os_path_join "comics" "optimized", true, true, [],
         [.err "a.jpg" dep_error],
         [(⟨"comics", "a", ".jpg"⟩,
           ⟨os_path_join "comics" "optimized", "a", ".jpg"⟩)]⟩ := by
  constructor
  · rfl
  · decide

/-- C4 (amended): when the imaging library is unavailable, `optimize_image`,
`create_thumbnail` and `get_image_info` fail immediately with the
dependency-unavailable condition; `batch_optimize` does not fail — the
per-file dependency errors are caught by its `try/except`, every supported
entry is logged with the dependency message, and the call returns normally
with an empty success list. -/
theorem c4_dependency_unavailable (env : Env) (pol : ProcessingPolicy)
    (i : PyPath) (o : Option PyPath) (sz : ℕ × ℕ)
    (input_dir : String) (entries : List PyPath) (od : Option String)
    (hp : env.pil_available = false) :
    optimize_image env pol i o = .error dep_error ∧
    create_thumbnail env pol i o sz = .error dep_error ∧
    get_image_info env i = .error dep_error ∧
    (batch_optimize env pol input_dir entries od).optimized_images = [] ∧
    (batch_optimize env pol input_dir entries od).events
      = (entries.filter (fun e => is_supported e)).map
          (fun e => .err e.name dep_error) := by
  have hopt : ∀ (j : PyPath) (oo : Option PyPath),
      optimize_image env pol j oo = .error dep_error := by
    intro j oo
    simp [optimize_image, hp]
  refine ⟨hopt i o, ?_, ?_, ?_, ?_⟩
  · simp [create_thumbnail, hp]
  · simp [get_image_info, hp]
  · rw [batch_optimize_images]
    unfold batch_success_outputs
    rw [List.filterMap_eq_nil_iff]
    intro e he
    rw [hopt]
  · rw [batch_optimize_events]
    apply List.map_congr_left
    intro e he
    unfold batch_event_of
    rw [hopt]

/-- Witness for the amended C4 with Pillow missing and one supported entry. -/
theorem c4_dependency_unavailable_witness :
    env_nopil.pil_available = false ∧
    (optimize_image env_nopil default_policy in_sample none = .error dep_error ∧
     create_thumbnail env_nopil default_policy in_sample none (400, 600)
       = .error dep_error ∧
     get_image_info env_nopil in_sample = .error dep_error ∧
     (batch_optimize env_nopil default_policy "comics"
        [⟨"comics", "a", ".jpg"⟩] none).optimized_images = [] ∧
     (batch_optimize env_nopil default_policy "comics"
        [⟨"comics", "a", ".jpg"⟩] none).events
       = ([(⟨"comics", "a", ".jpg"⟩ : PyPath)].filter
            (fun e => is_supported e)).map (fun e => .err e.name dep_error)) :=
  ⟨rfl,
   c4_dependency_unavailable env_nopil default_policy in_sample none (400, 600)
     "comics" [⟨"comics", "a", ".jpg"⟩] none rfl⟩

/-- The caller-supplied output path `comics/page1.png` for C5's
counterexample. -/
def out_png : PyPath := ⟨"comics", "page1", ".png"⟩

/-- C5 as stated is false: when the caller supplies an explicit
`output_path` with a non-`.jpg` extension, `optimize_image` returns that
path verbatim — here `comics/page1.png`, whose suffix is `.png`, not
`.jpg` — even though the save step does force the JPEG format. -/
theorem c5_explicit_output_keeps_ext_cex :
    optimize_image env_ok default_policy in_sample (some out_png)
      = .ok (optimize_result default_policy out_png sample_image) ∧
    (optimize_result default_policy out_png sample_image).ret = out_png ∧
    (optimize_result default_policy out_png sample_image).ret.ext = ".png" ∧
    (".png" : String) ≠ ".jpg" ∧
    (optimize_result default_policy out_png sample_image).save.format = "JPEG" := by
  refine ⟨rfl, rfl, rfl, by decide, rfl⟩

/-- C5 (amended): the save step always forces the JPEG format regardless of
the output path's extension; when `output_path` is omitted the returned path
is the derived one, which is `.jpg`-suffixed — but an explicitly supplied
`output_path` is returned verbatim, keeping whatever extension the caller
chose. -/
theorem c5_output_path_and_format (env : Env) (pol : ProcessingPolicy)
    (i : PyPath) :
    (∀ r, optimize_image env pol i none = .ok r →
        r.ret = generate_output_path i "_optimized" ∧ r.ret.ext = ".jpg" ∧
        r.save.format = "JPEG") ∧
    (∀ out r, optimize_image env pol i (some out) = .ok r →
        r.ret = out ∧ r.save.format = "JPEG") := by
  constructor
  · intro r hr
    obtain ⟨img, hdec, heq⟩ := optimize_image_ok_elim hr
    subst heq
    exact ⟨rfl, rfl, rfl⟩
  · intro out r hr
    obtain ⟨img, hdec, heq⟩ := optimize_image_ok_elim hr
    subst heq
    exact ⟨rfl, rfl⟩

/-- Witness for the amended C5: the default-path branch at a concrete
successful call. -/
theorem c5_output_path_and_format_witness :
    optimize_image env_ok default_policy in_sample none
      = .ok (optimize_result default_policy
          (generate_output_path in_sample "_optimized") sample_image) ∧
    ((optimize_result default_policy
        (generate_output_path in_sample "_optimized") sample_image).ret
       = generate_output_path in_sample "_optimized" ∧
     (optimize_result default_policy
        (generate_output_path in_sample "_optimized") sample_image).ret.ext
       = ".jpg" ∧
     (optimize_result default_policy
        (generate_output_path in_sample "_optimized") sample_image).save.format
       = "JPEG") :=
  ⟨rfl,
   (c5_output_path_and_format env_ok default_policy in_sample).1
     (optimize_result default_policy
       (generate_output_path in_sample "_optimized") sample_image) rfl⟩

/-- C7: every decoded image whose color representation includes an alpha
channel or a palette (modes `RGBA`, `LA`, `P` among the decodable modes) is
converted to plain RGB before the resize/encode steps, in both
`optimize_image` and `create_thumbnail`: the image handed to `img.save` has
mode `RGB`. -/
theorem c7_alpha_palette_converted (env : Env) (pol : ProcessingPolicy)
    (i : PyPath) (o : Option PyPath) (sz : ℕ × ℕ) (img : DecodedImage)
    (hdec : env.decode i = .ok img)
    (hm : img.mode.hasAlpha = true ∨ img.mode.hasPalette = true) :
    convert_mode img.mode = .RGB ∧
    (∀ r, optimize_image env pol i o = .ok r → r.save.mode = .RGB) ∧
    (∀ r, create_thumbnail env pol i o sz = .ok r → r.save.mode = .RGB) := by
  have hc : convert_mode img.mode = .RGB := by
    cases hmm : img.mode <;>
      simp_all [PILMode.hasAlpha, PILMode.hasPalette, convert_mode]
  refine ⟨hc, ?_, ?_⟩
  · intro r hr
    obtain ⟨img', hdec', heq⟩ := optimize_image_ok_elim hr
    rw [hdec] at hdec'
    injection hdec' with he
    subst he
    subst heq
    simpa [optimize_result] using hc
  · intro r hr
    obtain ⟨img', hdec', heq⟩ := create_thumbnail_ok_elim hr
    rw [hdec] at hdec'
    injection hdec' with he
    subst he
    subst heq
    simpa [thumbnail_result] using hc

/-- Witness for C7: a decoded RGBA image is saved as RGB by both
operations. -/
theorem c7_alpha_palette_converted_witness :
    env_rgba.decode in_sample = .ok rgba_image ∧
    PILMode.hasAlpha rgba_image.mode = true ∧
    (convert_mode rgba_image.mode = PILMode.RGB ∧
     (optimize_result default_policy
        (generate_output_path in_sample "_optimized") rgba_image).save.mode
       = PILMode.RGB ∧
     (thumbnail_result env_rgba
        (generate_output_path in_sample "_thumb") (400, 600) rgba_image).save.mode
       = PILMode.RGB) :=
  ⟨rfl, rfl,
   (c7_alpha_palette_converted env_rgba default_policy in_sample none (400, 600)
      rgba_image rfl (Or.inl rfl)).1,
   (c7_alpha_palette_converted env_rgba default_policy in_sample none (400, 600)
      rgba_image rfl (Or.inl rfl)).2.1
     (optimize_result default_policy
       (generate_output_path in_sample "_optimized") rgba_image) rfl,
   (c7_alpha_palette_converted env_rgba default_policy in_sample none (400, 600)
      rgba_image rfl (Or.inl rfl)).2.2
     (thumbnail_result env_rgba
       (generate_output_path in_sample "_thumb") (400, 600) rgba_image) rfl⟩

/-- C8: `create_thumbnail` always saves at the fixed JPEG quality 90, for
every environment, input, output choice, size, and policy — in particular
independently of `ProcessingPolicy.quality`. -/
theorem c8_thumbnail_quality_fixed (env : Env) (pol : ProcessingPolicy)
    (i : PyPath) (o : Option PyPath) (sz : ℕ × ℕ) (r : OptResult)
    (h : create_thumbnail env pol i o sz = .ok r) :
    r.save.quality = 90 := by
  obtain ⟨img, hdec, heq⟩ := create_thumbnail_ok_elim h
  subst heq
  rfl

/-- A policy whose configured quality is 42, to exhibit that the thumbnail
quality does not follow it. -/
def odd_policy : ProcessingPolicy := ⟨1200, 1800, 42⟩

/-- Witness for C8: even under a policy with quality 42, the thumbnail save
uses quality 90. -/
theorem c8_thumbnail_quality_fixed_witness :
    odd_policy.quality = 42 ∧
    create_thumbnail env_ok odd_policy in_sample none (400, 600)
      = .ok (thumbnail_result env_ok
          (generate_output_path in_sample "_thumb") (400, 600) sample_image) ∧
    (thumbnail_result env_ok
       (generate_output_path in_sample "_thumb") (400, 600) sample_image).save.quality
      = 90 :=
  ⟨rfl, rfl,
   c8_thumbnail_quality_fixed env_ok odd_policy in_sample none (400, 600)
     (thumbnail_result env_ok
       (generate_output_path in_sample "_thumb") (400, 600) sample_image) rfl⟩

/-- C9: when `output_path` is omitted, the output path is derived from the
input by dropping the extension and appending a fixed suffix plus `.jpg` in
the same directory: `optimize_image` returns `<parent>/<stem>_optimized.jpg`
and `create_thumbnail` returns `<parent>/<stem>_thumb.jpg`. -/
theorem c9_default_output_paths (env : Env) (pol : ProcessingPolicy)
    (i : PyPath) (sz : ℕ × ℕ) :
    generate_output_path i "_optimized"
      = ⟨i.dir, i.stem ++ "_optimized", ".jpg"⟩ ∧
    generate_output_path i "_thumb" = ⟨i.dir, i.stem ++ "_thumb", ".jpg"⟩ ∧
    (∀ r, optimize_image env pol i none = .ok r →
        r.ret = ⟨i.dir, i.stem ++ "_optimized", ".jpg"⟩) ∧
    (∀ r, create_thumbnail env pol i none sz = .ok r →
        r.ret = ⟨i.dir, i.stem ++ "_thumb", ".jpg"⟩) := by
  refine ⟨rfl, rfl, ?_, ?_⟩
  · intro r hr
    obtain ⟨img, hdec, heq⟩ := optimize_image_ok_elim hr
    subst heq
    rfl
  · intro r hr
    obtain ⟨img, hdec, heq⟩ := create_thumbnail_ok_elim hr
    subst heq
    rfl

/-- Witness for C9: `comics/page1.png` maps to `comics/page1_optimized.jpg`
and `comics/page1_thumb.jpg`. -/
theorem c9_default_output_paths_witness :
    optimize_image env_ok default_policy in_sample none
      = .ok (optimize_result default_policy
          (generate_output_path in_sample "_optimized") sample_image) ∧
    (optimize_result default_policy
       (generate_output_path in_sample "_optimized") sample_image).ret
      = ⟨"comics", "page1" ++ "_optimized", ".jpg"⟩ ∧
    create_thumbnail env_ok default_policy in_sample none (400, 600)
      = .ok (thumbnail_result env_ok
          (generate_output_path in_sample "_thumb") (400, 600) sample_image) ∧
    (thumbnail_result env_ok
       (generate_output_path in_sample "_thumb") (400, 600) sample_image).ret
      = ⟨"comics", "page1" ++ "_thumb", ".jpg"⟩ :=
  ⟨rfl,
   (c9_default_output_paths env_ok default_policy in_sample (400, 600)).2.2.1
     (optimize_result default_policy
       (generate_output_path in_sample "_optimized") sample_image) rfl,
   rfl,
   (c9_default_output_paths env_ok default_policy in_sample (400, 600)).2.2.2
     (thumbnail_result env_ok
       (generate_output_path in_sample "_thumb") (400, 600) sample_image) rfl⟩
